import Mathlib

/-!
Verification of the `places` reverse-geocoding sensor
(`custom_components/places/sensor.py`) against its natural-language
specification.

The Python module is shallowly embedded as follows:

* The entity's mutable attribute store (`self._internal_attr`) becomes the
  record `PlacesState`; an attribute that may be absent or set to `None`
  becomes an `Option` field.  Python "blank" semantics (`is_attr_blank`:
  falsy and not equal to `0`) are captured by the `getS` / `getL` / `getD`
  accessors, mirroring `get_attr` which returns `None` for blank values.
* Python floats are modelled as exact rationals (`ℚ`) at the state-machine
  level: the update logic only stores, compares and truncates these values,
  so the branching structure is preserved exactly.  The one genuinely
  analytic function, `haversine`, is modelled over `ℝ` with real `sin`,
  `cos`, `arcsin` and `sqrt`, mirroring `math` semantics.
* Results of the external collaborators (the device-tracker readings, the
  home-assistant `distance()` helper, the float result of the
  `self.haversine` call, the geocode fetch) are supplied per update pass in
  `ExternalInputs`.
* Code that can raise a Python exception (e.g. `x in None` → `TypeError`,
  an out-of-range list index → `IndexError`, a read of an unassigned local
  → `NameError`) is embedded in `Except String`, the error string naming
  the exception type.
-/

/-- Python `s[:n]` on a string: take the first `n` code points. -/
def pyTake (s : String) (n : ℕ) : String := ⟨s.data.take n⟩

/-- Python `s[n:]` on a string: drop the first `n` code points. -/
def pyDrop (s : String) (n : ℕ) : String := ⟨s.data.drop n⟩

/-- Python `needle in hay` for strings: substring containment. -/
def pyInStr (needle hay : String) : Bool :=
  (List.range (hay.data.length + 1)).any (fun i => needle.data.isPrefixOf (hay.data.drop i))

/-- Python `str.lower()` (ASCII model). -/
def pyLower (s : String) : String := ⟨s.data.map Char.toLower⟩

/-- Python `str.upper()` (ASCII model). -/
def pyUpper (s : String) : String := ⟨s.data.map Char.toUpper⟩

/-- Python `str.strip()`: whitespace removed from both ends. -/
def pyStrip (s : String) : String :=
  ⟨((s.data.dropWhile Char.isWhitespace).reverse.dropWhile Char.isWhitespace).reverse⟩

/-- Python `str.startswith(pat)`. -/
def pyStartsWith (s pat : String) : Bool := pat.data.isPrefixOf s.data

/-- Worker for `pySplit`, fuelled to stay structurally recursive. -/
def pySplitGo (sep : List Char) : ℕ → List Char → List Char → List (List Char)
  | 0, rest, acc => [acc.reverse ++ rest]
  | _ + 1, [], acc => [acc.reverse]
  | fuel + 1, c :: cs, acc =>
    if sep.isPrefixOf (c :: cs) ∧ sep ≠ [] then
      acc.reverse :: pySplitGo sep fuel ((c :: cs).drop sep.length) []
    else
      pySplitGo sep fuel cs (c :: acc)

/-- Python `s.split(sep)` for a non-empty separator. -/
def pySplit (s sep : String) : List String :=
  (pySplitGo sep.data (s.data.length + 1) s.data []).map (fun l => ⟨l⟩)

/-- Worker for `pyReplace`, fuelled to stay structurally recursive. -/
def pyReplaceGo (pat rep : List Char) : ℕ → List Char → List Char
  | 0, rest => rest
  | _ + 1, [] => []
  | fuel + 1, c :: cs =>
    if pat.isPrefixOf (c :: cs) ∧ pat ≠ [] then
      rep ++ pyReplaceGo pat rep fuel ((c :: cs).drop pat.length)
    else
      c :: pyReplaceGo pat rep fuel cs

/-- Python `s.replace(pat, rep)`: all non-overlapping occurrences, left to
right. -/
def pyReplace (s pat rep : String) : String :=
  ⟨pyReplaceGo pat.data rep.data (s.data.length + 1) s.data⟩

/-- Python `sep.join(xs)`. -/
def pyJoin (sep : String) : List String → String
  | [] => ""
  | [x] => x
  | x :: y :: rest => x ++ sep ++ pyJoin sep (y :: rest)

/-- Python `str.title()` (ASCII model): the first letter of every alphabetic
run is upper-cased, the rest lower-cased. -/
def pyTitleGo : Bool → List Char → List Char
  | _, [] => []
  | prevAlpha, c :: cs =>
    (if c.isAlpha then (if prevAlpha then c.toLower else c.toUpper) else c) ::
      pyTitleGo c.isAlpha cs

/-- Python `str.title()` on a string. -/
def pyTitle (s : String) : String := ⟨pyTitleGo false s.data⟩

/-- Python `int(x)` on a float/rational: truncation toward zero. -/
def pyInt (q : ℚ) : ℤ := if q < 0 then ⌈q⌉ else ⌊q⌋

/-- Python banker's rounding of a rational to the nearest integer
(`round()` rounds half to even). -/
def pyRoundHalfEven (q : ℚ) : ℤ :=
  if q - ⌊q⌋ < 1/2 then ⌊q⌋
  else if 1/2 < q - ⌊q⌋ then ⌊q⌋ + 1
  else if ⌊q⌋ % 2 = 0 then ⌊q⌋ else ⌊q⌋ + 1

/-- Python `round(q, n)` for a nonnegative digit count `n`. -/
def pyRound (q : ℚ) (n : ℕ) : ℚ := (pyRoundHalfEven (q * 10 ^ n) : ℚ) / 10 ^ n

/-- Python `"%02d" % n`: decimal digits padded with `0` to width 2. -/
def pyFmt02 (n : ℕ) : String := if n < 10 then "0" ++ Nat.repr n else Nat.repr n

/-- Python `str(x)` for a float attribute value modelled as a rational. -/
def pyStrQ (q : ℚ) : String := toString q

/-- `get_attr` on a string attribute: `None` when absent or blank (`""`). -/
def getS : Option String → Option String
  | none => none
  | some s => if s = "" then none else some s

/-- `get_attr` on a list attribute: `None` when absent or blank (`[]`). -/
def getL : Option (List String) → Option (List String)
  | none => none
  | some [] => none
  | some (x :: xs) => some (x :: xs)

/-- `is_attr_blank` on a string attribute. -/
def blankS (v : Option String) : Bool := (getS v).isNone

/-- `is_attr_blank` on a float attribute: a present float is never blank
(`0` is explicitly not blank). -/
def blankQ (v : Option ℚ) : Bool := v.isNone

/-- The raw geocode response: the keys of the nominatim `jsonv2` reply that
`parse_osm_dict` reads.  `none` means the key is absent; the `address` and
`namedetails` sub-objects are string-to-string mappings. -/
structure OSMDict where
  type? : Option String := none
  addresstype? : Option String := none
  category? : Option String := none
  address? : Option (List (String × String)) := none
  namedetails? : Option (List (String × String)) := none
  display_name? : Option String := none
  osm_id? : Option String := none
  osm_type? : Option String := none
  deriving DecidableEq, Repr

/-- Python dict truthiness for the modelled geocode response: empty iff
every modelled key is absent. -/
def OSMDict.isEmptyDict (d : OSMDict) : Bool :=
  d.type?.isNone && d.addresstype?.isNone && d.category?.isNone && d.address?.isNone &&
    d.namedetails?.isNone && d.display_name?.isNone && d.osm_id?.isNone && d.osm_type?.isNone

/-- `get_attr(ATTR_OSM_DICT)`: `None` when the attribute is absent or the
dict is empty (blank). -/
def getD : Option OSMDict → Option OSMDict
  | none => none
  | some d => if d.isEmptyDict then none else some d

/-- Python `key in dict` for an optional lookup key against a
string-to-string mapping (`None in dict` is `False`). -/
def memKey (k : Option String) (m : List (String × String)) : Bool :=
  match k with
  | none => false
  | some s => (m.lookup s).isSome

/-- The entity's attribute store `self._internal_attr`, one field per
attribute the update path reads or writes.  Configuration attributes
(`CONF_*`) are the trailing fields. -/
structure PlacesState where
  initialUpdate : Bool := true
  nativeValue : Option String := none
  previousState : Option String := none
  gpsAccuracy : Option ℚ := none
  latitude : Option ℚ := none
  longitude : Option ℚ := none
  latitudeOld : Option ℚ := none
  longitudeOld : Option ℚ := none
  homeLatitude : Option ℚ := none
  homeLongitude : Option ℚ := none
  locationCurrent : Option String := none
  locationPrevious : Option String := none
  homeLocation : Option String := none
  devicetrackerZone : Option String := none
  devicetrackerZoneName : Option String := none
  distanceFromHomeM : Option ℚ := none
  distanceFromHomeKm : Option ℚ := none
  distanceFromHomeMi : Option ℚ := none
  distanceTraveledM : Option ℚ := none
  distanceTraveledMi : Option ℚ := none
  directionOfTravel : Option String := none
  lastPlaceName : Option String := none
  updatesSkipped : ℤ := 0
  placeName : Option String := none
  placeType : Option String := none
  placeCategory : Option String := none
  placeNeighbourhood : Option String := none
  streetNumber : Option String := none
  street : Option String := none
  streetRef : Option String := none
  city : Option String := none
  postalTown : Option String := none
  region : Option String := none
  stateAbbr : Option String := none
  county : Option String := none
  country : Option String := none
  postalCode : Option String := none
  formattedAddress : Option String := none
  osmId : Option String := none
  osmType : Option String := none
  osmDict : Option OSMDict := none
  osmDetailsDict : Option (List (String × List (String × String))) := none
  wikidataId : Option String := none
  wikidataDict : Option (List (String × String)) := none
  displayOptions : Option (List String) := none
  isDriving : Bool := false
  formattedPlace : Option String := none
  mapLink : Option String := none
  lastChanged : Option String := none
  lastUpdated : Option String := none
  name : Option String := none
  options : Option String := none
  homeZone : Option String := none
  mapProvider : Option String := none
  mapZoom : ℤ := 18
  language : Option String := none
  showTime : Bool := false
  extendedAttr : Bool := false
  deriving DecidableEq, Repr

/-- Per-pass readings from the external collaborators (device tracker,
zone registry, `homeassistant.util.location.distance`, the float value of
the `self.haversine` call, and the geocode / details / wikidata fetches).
Modelled from the spec: these are the external interfaces of §6; the
`distance` helper returns meters (§4.2). -/
structure ExternalInputs where
  nowHour : Fin 24
  nowMinute : Fin 60
  nowStr : String
  friendlyName : Option String := none
  trackerLatitude : Option ℚ := none
  trackerLongitude : Option ℚ := none
  gpsAccuracy : Option ℚ := none
  zone : String := "not_home"
  zoneName : Option String := none
  distanceFromHomeM : ℚ := 0
  deviationKm : ℚ := 0
  distanceTraveledM : ℚ := 0
  osmResult : OSMDict := {}
  osmDetails : List (String × List (String × String)) := []
  wikidataDict : List (String × String) := []
  deriving DecidableEq, Repr

/-- `in_zone` (sensor.py:785): the tracked entity counts as in a zone when
the zone attribute is non-blank and its lower-cased value neither contains
"stationary" nor is one of `away`, `not_home`, `notset`. -/
def in_zone (s : PlacesState) : Bool :=
  match getS s.devicetrackerZone with
  | none => false
  | some z =>
    if pyInStr "stationary" (pyLower z) || pyLower z = "away" || pyLower z = "not_home"
        || pyLower z = "notset" then
      false
    else
      true

/-- `determine_if_update_needed` (sensor.py:913): the update gate.  Returns
`proceed_with_update` and the possibly-modified state; `int(None)` on a
missing distance raises `TypeError`. -/
def determine_if_update_needed (s : PlacesState) : Except String (Bool × PlacesState) :=
  if s.gpsAccuracy = some 0 then
    .ok (false, s)
  else if s.initialUpdate then
    .ok (true, s)
  else if getS s.locationCurrent = getS s.locationPrevious then
    .ok (false, s)
  else
    match s.distanceTraveledM with
    | none => .error "TypeError"
    | some dist =>
      if 0 < pyInt dist ∧ 3 < s.updatesSkipped then
        .ok (true, s)
      else if pyInt dist < 10 then
        .ok (false, { s with updatesSkipped := s.updatesSkipped + 1 })
      else
        .ok (true, s)

/-- `exclude_chars` of the street-ref cleanup (sensor.py:1336). -/
def excludeChars : List String := [",", "\\", "/", ";", ":"]

/-- `parse_osm_dict`, the `"type"` block (sensor.py:1170-1185): `place_type`
from `type` (replaced from `addresstype` for the sentinel `"yes"`), then
`place_name` from the matching `address` entry; `x in
osm_dict.get("address")` raises `TypeError` when `address` is absent. -/
def parse_osm_type_step (d : OSMDict) (s : PlacesState) : Except String PlacesState :=
  if d.type?.isSome then
    let st := { s with placeType := d.type? }
    let st := if getS st.placeType = some "yes" then { st with placeType := d.addresstype? } else st
    match d.address? with
    | none => .error "TypeError"
    | some addr =>
      if memKey (getS st.placeType) addr then
        .ok { st with placeName := addr.lookup ((getS st.placeType).getD "") }
      else
        .ok st
  else
    .ok s

/-- `parse_osm_dict`, the `"category"` block (sensor.py:1186-1199). -/
def parse_osm_category_step (d : OSMDict) (s : PlacesState) : Except String PlacesState :=
  if d.category?.isSome then
    let st := { s with placeCategory := d.category? }
    match d.address? with
    | none => .error "TypeError"
    | some addr =>
      if memKey (getS st.placeCategory) addr then
        .ok { st with placeName := addr.lookup ((getS st.placeCategory).getD "") }
      else
        .ok st
  else
    .ok s

/-- `parse_osm_dict`, the `namedetails.name` override (sensor.py:1200-1204):
the unguarded `"name" in osm_dict.get("namedetails")` raises `TypeError`
when `namedetails` is absent. -/
def parse_osm_namedetails_step (d : OSMDict) (s : PlacesState) : Except String PlacesState :=
  match d.namedetails? with
  | none => .error "TypeError"
  | some nd =>
    if (nd.lookup "name").isSome then
      .ok { s with placeName := nd.lookup "name" }
    else
      .ok s

/-- `parse_osm_dict`, the per-language name override (sensor.py:1205-1216):
the first configured language tag with a `name:<lang>` entry wins. -/
def parse_osm_language_step (d : OSMDict) (s : PlacesState) : Except String PlacesState :=
  if ¬ blankS s.language then
    match d.namedetails? with
    | none => .error "TypeError"
    | some nd =>
      match (pySplit ((getS s.language).getD "") ",").find?
          (fun lang => (nd.lookup ("name:" ++ lang)).isSome) with
      | some lang => .ok { s with placeName := nd.lookup ("name:" ++ lang) }
      | none => .ok s
  else
    .ok s

/-- `parse_osm_dict` (sensor.py:1217-1218): outside a zone a place name
other than `"house"` is tentatively stored as the native value. -/
def parse_osm_native_step (s : PlacesState) : PlacesState :=
  if ¬ in_zone s ∧ getS s.placeName ≠ some "house" then
    { s with nativeValue := getS s.placeName }
  else
    s

/-- `parse_osm_dict`, the direct address mappings through `state`→region
(sensor.py:1220-1291), including the `"City of"` rewrite. -/
def parse_osm_address_step (d : OSMDict) (s : PlacesState) : Except String PlacesState :=
  match d.address? with
  | none => .error "TypeError"
  | some addr =>
    let st := if (addr.lookup "house_number").isSome then
        { s with streetNumber := addr.lookup "house_number" } else s
    let st := if (addr.lookup "road").isSome then
        { st with street := addr.lookup "road" } else st
    let st := if (addr.lookup "neighbourhood").isSome then
        { st with placeNeighbourhood := addr.lookup "neighbourhood" }
      else if (addr.lookup "hamlet").isSome then
        { st with placeNeighbourhood := addr.lookup "hamlet" }
      else st
    let st := if (addr.lookup "city").isSome then
        { st with city := addr.lookup "city" }
      else if (addr.lookup "town").isSome then
        { st with city := addr.lookup "town" }
      else if (addr.lookup "village").isSome then
        { st with city := addr.lookup "village" }
      else if (addr.lookup "township").isSome then
        { st with city := addr.lookup "township" }
      else if (addr.lookup "municipality").isSome then
        { st with city := addr.lookup "municipality" }
      else if (addr.lookup "city_district").isSome then
        { st with city := addr.lookup "city_district" }
      else st
    let st := if ¬ blankS st.city ∧ pyStartsWith ((getS st.city).getD "") "City of" then
        { st with city := some (pyDrop ((getS st.city).getD "") 8 ++ " City") }
      else st
    let st := if (addr.lookup "city_district").isSome then
        { st with postalTown := addr.lookup "city_district" } else st
    let st := if (addr.lookup "suburb").isSome then
        { st with postalTown := addr.lookup "suburb" } else st
    let st := if (addr.lookup "state").isSome then
        { st with region := addr.lookup "state" } else st
    .ok st

/-- `parse_osm_dict`, the `ISO3166-2-lvl4` state abbreviation
(sensor.py:1292-1302): `split("-")[1]` raises `IndexError` on a dash-free
value. -/
def parse_osm_iso_step (d : OSMDict) (s : PlacesState) : Except String PlacesState :=
  match d.address? with
  | none => .error "TypeError"
  | some addr =>
    if (addr.lookup "ISO3166-2-lvl4").isSome then
      match pySplit ((addr.lookup "ISO3166-2-lvl4").getD "") "-" with
      | _ :: p :: _ => .ok { s with stateAbbr := some (pyUpper p) }
      | _ => .error "IndexError"
    else
      .ok s

/-- `parse_osm_dict`, the county / country / postcode mappings
(sensor.py:1303-1317). -/
def parse_osm_address_tail_step (d : OSMDict) (s : PlacesState) : Except String PlacesState :=
  match d.address? with
  | none => .error "TypeError"
  | some addr =>
    let st := if (addr.lookup "county").isSome then
        { s with county := addr.lookup "county" } else s
    let st := if (addr.lookup "country").isSome then
        { st with country := addr.lookup "country" } else st
    let st := if (addr.lookup "postcode").isSome then
        { st with postalCode := addr.lookup "postcode" } else st
    .ok st

/-- `parse_osm_dict`, the top-level `display_name` / `osm_id` / `osm_type`
mappings (sensor.py:1318-1327). -/
def parse_osm_toplevel_step (d : OSMDict) (s : PlacesState) : PlacesState :=
  let st := if d.display_name?.isSome then { s with formattedAddress := d.display_name? } else s
  let st := if d.osm_id?.isSome then { st with osmId := d.osm_id? } else st
  if d.osm_type?.isSome then { st with osmType := d.osm_type? } else st

/-- `parse_osm_dict`, the highway street-ref cleanup (sensor.py:1329-1353).
`if 1 in [c in street_ref for c in exclude_chars]` tests for any delimiter
(`True == 1`); the walrus `find_num := street_ref.find(char) != -1` binds
the *boolean*, so each appended entry is `int(True) = 1` and the slice is
always `street_ref[:1]`. -/
def parse_osm_street_ref_step (d : OSMDict) (s : PlacesState) : Except String PlacesState :=
  if ¬ blankS s.placeCategory ∧ pyLower ((getS s.placeCategory).getD "") = "highway"
      ∧ d.namedetails?.isSome ∧ ((d.namedetails?.getD []).lookup "ref").isSome then
    let street_ref := ((d.namedetails?.getD []).lookup "ref").getD ""
    if excludeChars.any (fun c => pyInStr c street_ref) then
      match (excludeChars.filter (fun c => pyInStr c street_ref)).map (fun _ => (1 : ℕ)) with
      | [] => .error "ValueError"
      | n :: rest => .ok { s with streetRef := some (pyTake street_ref (rest.foldl min n)) }
    else
      .ok { s with streetRef := some street_ref }
  else
    .ok s

/-- `parse_osm_dict` (sensor.py:1169): derives the place attributes from the
raw geocode response, as the sequence of blocks above; a blank stored
response makes the first membership test `"type" in None` raise
`TypeError`. -/
def parse_osm_dict (s : PlacesState) : Except String PlacesState :=
  match getD s.osmDict with
  | none => .error "TypeError"
  | some d =>
    parse_osm_type_step d s >>= parse_osm_category_step d >>= parse_osm_namedetails_step d
      >>= parse_osm_language_step d
      >>= (fun st => parse_osm_address_step d (parse_osm_native_step st))
      >>= parse_osm_iso_step d >>= parse_osm_address_tail_step d
      >>= (fun st => parse_osm_street_ref_step d (parse_osm_toplevel_step d st))

/-- `build_state_from_display_options` (sensor.py:1462): assembles
`native_value` from the configured option tokens in the fixed priority
order.  Reading a blank `display_options` attribute makes `"driving" in
None` raise `TypeError`; in the `do_not_reorder` branch the
`target_option` local is read (`NameError` when unassigned) whenever the
option token is one of the function's local-variable names. -/
def build_state_from_display_options (s : PlacesState) : Except String PlacesState := do
  let opts ← match getL s.displayOptions with
    | none => throw "TypeError"
    | some l => pure l
  let mut user_display : List String := []
  if "driving" ∈ opts ∧ s.isDriving then
    user_display := user_display ++ ["Driving"]
  if "zone_name" ∈ opts ∧ "do_not_show_not_home" ∉ opts ∧ ¬ blankS s.devicetrackerZoneName then
    user_display := user_display ++ [(getS s.devicetrackerZoneName).getD ""]
  else if "zone" ∈ opts ∧ "do_not_show_not_home" ∉ opts ∧ ¬ blankS s.devicetrackerZone then
    user_display := user_display ++ [(getS s.devicetrackerZone).getD ""]
  if "place_name" ∈ opts ∧ ¬ blankS s.placeName then
    user_display := user_display ++ [(getS s.placeName).getD ""]
  if "place" ∈ opts then
    if ¬ blankS s.placeName ∧ getS s.placeName ≠ getS s.street then
      user_display := user_display ++ [(getS s.placeName).getD ""]
    if ¬ blankS s.placeCategory ∧ pyLower ((getS s.placeCategory).getD "") ≠ "place" then
      user_display := user_display ++ [(getS s.placeCategory).getD ""]
    if ¬ blankS s.placeType ∧ pyLower ((getS s.placeType).getD "") ≠ "yes" then
      user_display := user_display ++ [(getS s.placeType).getD ""]
    if ¬ blankS s.placeNeighbourhood then
      user_display := user_display ++ [(getS s.placeNeighbourhood).getD ""]
    if ¬ blankS s.streetNumber then
      user_display := user_display ++ [(getS s.streetNumber).getD ""]
    if ¬ blankS s.street then
      user_display := user_display ++ [(getS s.street).getD ""]
  else
    if "street_number" ∈ opts ∧ ¬ blankS s.streetNumber then
      user_display := user_display ++ [(getS s.streetNumber).getD ""]
    if "street" ∈ opts ∧ ¬ blankS s.street then
      user_display := user_display ++ [(getS s.street).getD ""]
  if "city" ∈ opts ∧ ¬ blankS s.city then
    user_display := user_display ++ [(getS s.city).getD ""]
  if "county" ∈ opts ∧ ¬ blankS s.county then
    user_display := user_display ++ [(getS s.county).getD ""]
  if "state" ∈ opts ∧ ¬ blankS s.region then
    user_display := user_display ++ [(getS s.region).getD ""]
  else if "region" ∈ opts ∧ ¬ blankS s.region then
    user_display := user_display ++ [(getS s.region).getD ""]
  if "postal_code" ∈ opts ∧ ¬ blankS s.postalCode then
    user_display := user_display ++ [(getS s.postalCode).getD ""]
  if "country" ∈ opts ∧ ¬ blankS s.country then
    user_display := user_display ++ [(getS s.country).getD ""]
  if "formatted_address" ∈ opts ∧ ¬ blankS s.formattedAddress then
    user_display := user_display ++ [(getS s.formattedAddress).getD ""]
  if "do_not_reorder" ∈ opts then
    user_display := []
    let opts2 := opts.erase "do_not_reorder"
    let mut target_option : Option String := none
    for option in opts2 do
      if option = "state" then
        target_option := some "region"
      if option = "place_neighborhood" then
        target_option := some "place_neighbourhood"
      if option ∈ (["self", "display_options", "user_display", "option"] ++
          (if target_option.isSome then ["target_option"] else [])) then
        match target_option with
        | some t => user_display := user_display ++ [t]
        | none => throw "NameError"
  if user_display ≠ [] then
    pure { s with nativeValue := some (pyJoin ", " user_display) }
  else
    pure s

/-- The attributes whose values suppress a duplicated place name in
`build_formatted_place`.  Modelled from the spec:
`PLACE_NAME_DUPLICATE_LIST` is declared in `const.py`, which is not under
`src/`; §4.6 names "street, city, county, region, etc.". -/
def placeNameDuplicates (s : PlacesState) : List (Option String) :=
  [s.street, s.city, s.county, s.region, s.stateAbbr, s.country]

/-- `build_formatted_place` (sensor.py:1369).  The duplicate-name check sets
`use_place_name` to `False` in both branches, so the place name is never
used (the source's dead `else` arm is kept).  A blank `place_category`
reached by the type branch raises `AttributeError` (`None.lower()`). -/
def build_formatted_place (s : PlacesState) : Except String PlacesState := do
  let mut arr : List String := []
  let sensor_attributes_values :=
    (placeNameDuplicates s).foldr
      (fun v acc => match getS v with | some x => x :: acc | none => acc) []
  let use_place_name :=
    if ¬ blankS s.placeName ∧ ((getS s.placeName).getD "") ∈ sensor_attributes_values then
      false
    else
      false
  if ¬ in_zone s then
    if s.isDriving then
      match getL s.displayOptions with
      | none => throw "TypeError"
      | some opts =>
        if "driving" ∈ opts then
          arr := arr ++ ["Driving"]
    if ¬ use_place_name then
      if ¬ blankS s.placeType ∧ pyLower ((getS s.placeType).getD "") ≠ "unclassified" then
        match getS s.placeCategory with
        | none => throw "AttributeError"
        | some cat =>
          if pyLower cat ≠ "highway" then
            arr := arr ++
              [pyStrip (pyReplace (pyReplace (pyTitle ((getS s.placeType).getD "")) "Proposed" "") "Construction" "")]
          else if ¬ blankS s.placeCategory ∧ pyLower cat ≠ "highway" then
            arr := arr ++ [pyStrip (pyTitle cat)]
      else if ¬ blankS s.placeCategory ∧ pyLower ((getS s.placeCategory).getD "") ≠ "highway" then
        arr := arr ++ [pyStrip (pyTitle ((getS s.placeCategory).getD ""))]
      if ¬ blankS s.street then
        let street :=
          if ¬ blankS s.placeCategory ∧ pyLower ((getS s.placeCategory).getD "") = "highway"
              ∧ ¬ blankS s.placeType
              ∧ pyLower ((getS s.placeType).getD "") ∈ ["motorway", "trunk"]
              ∧ ¬ blankS s.streetRef then
            pyStrip ((getS s.streetRef).getD "")
          else
            pyStrip ((getS s.street).getD "")
        if blankS s.streetNumber then
          arr := arr ++ [street]
        else
          arr := arr ++ [pyStrip ((getS s.streetNumber).getD "") ++ " " ++ street]
      if ¬ blankS s.placeType ∧ pyLower ((getS s.placeType).getD "") = "house"
          ∧ ¬ blankS s.placeNeighbourhood then
        arr := arr ++ [pyStrip ((getS s.placeNeighbourhood).getD "")]
    else
      match getS s.placeName with
      | none => throw "AttributeError"
      | some p => arr := arr ++ [pyStrip p]
    if ¬ blankS s.city then
      arr := arr ++ [pyStrip (pyReplace ((getS s.city).getD "") " Township" "")]
    else if ¬ blankS s.county then
      arr := arr ++ [pyStrip ((getS s.county).getD "")]
    if ¬ blankS s.stateAbbr then
      arr := arr ++ [(getS s.stateAbbr).getD ""]
  else
    match getS s.devicetrackerZoneName with
    | none => throw "AttributeError"
    | some z => arr := arr ++ [pyStrip z]
  let formatted_place := pyJoin ", " arr
  let formatted_place := pyStrip (pyReplace (pyReplace formatted_place "\n" " ") "  " " ")
  pure { s with formattedPlace := some formatted_place }

/-- `str(self.get_attr(attr))` for a string attribute (Python prints blank
attributes as `"None"`). -/
def pyStrOptS (v : Option String) : String :=
  match getS v with
  | none => "None"
  | some s => s

/-- `str(self.get_attr(attr))` for a float attribute. -/
def pyStrOptQ (v : Option ℚ) : String :=
  match v with
  | none => "None"
  | some q => pyStrQ q

/-- `get_attr` on the details / wikidata dict attributes: blank when absent
or empty. -/
def getDict2 : Option (List (String × List (String × String))) →
    Option (List (String × List (String × String)))
  | none => none
  | some [] => none
  | some (x :: xs) => some (x :: xs)

/-- `get_attr(ATTR_WIKIDATA_DICT)`. -/
def getW : Option (List (String × String)) → Option (List (String × String))
  | none => none
  | some [] => none
  | some (x :: xs) => some (x :: xs)

/-- `cleanup_attributes` (sensor.py:805): every currently-blank attribute is
removed from the store; on the record model each field is normalised to
`none` when blank (present integers, floats and booleans are never blank). -/
def cleanup_attributes (s : PlacesState) : PlacesState :=
  { s with
    nativeValue := getS s.nativeValue
    previousState := getS s.previousState
    locationCurrent := getS s.locationCurrent
    locationPrevious := getS s.locationPrevious
    homeLocation := getS s.homeLocation
    devicetrackerZone := getS s.devicetrackerZone
    devicetrackerZoneName := getS s.devicetrackerZoneName
    directionOfTravel := getS s.directionOfTravel
    lastPlaceName := getS s.lastPlaceName
    placeName := getS s.placeName
    placeType := getS s.placeType
    placeCategory := getS s.placeCategory
    placeNeighbourhood := getS s.placeNeighbourhood
    streetNumber := getS s.streetNumber
    street := getS s.street
    streetRef := getS s.streetRef
    city := getS s.city
    postalTown := getS s.postalTown
    region := getS s.region
    stateAbbr := getS s.stateAbbr
    county := getS s.county
    country := getS s.country
    postalCode := getS s.postalCode
    formattedAddress := getS s.formattedAddress
    osmId := getS s.osmId
    osmType := getS s.osmType
    osmDict := getD s.osmDict
    osmDetailsDict := getDict2 s.osmDetailsDict
    wikidataId := getS s.wikidataId
    wikidataDict := getW s.wikidataDict
    displayOptions := getL s.displayOptions
    formattedPlace := getS s.formattedPlace
    mapLink := getS s.mapLink
    lastChanged := getS s.lastChanged
    lastUpdated := getS s.lastUpdated
    name := getS s.name
    options := getS s.options
    homeZone := getS s.homeZone
    mapProvider := getS s.mapProvider
    language := getS s.language }

/-- `get_map_link` (sensor.py:1068). -/
def get_map_link (s : PlacesState) : PlacesState :=
  if getS s.mapProvider = some "google" then
    { s with mapLink := some ("https://maps.google.com/?q=" ++ pyStrOptS s.locationCurrent
        ++ "&ll=" ++ pyStrOptS s.locationCurrent ++ "&z=" ++ toString s.mapZoom) }
  else if getS s.mapProvider = some "osm" then
    { s with mapLink := some ("https://www.openstreetmap.org/?mlat=" ++ pyStrOptQ s.latitude
        ++ "&mlon=" ++ pyStrOptQ s.longitude ++ "#map=" ++ toString s.mapZoom
        ++ "/" ++ pyTake (pyStrOptQ s.latitude) 8 ++ "/" ++ pyTake (pyStrOptQ s.longitude) 9) }
  else
    { s with mapLink := some ("https://maps.apple.com/maps/?q=" ++ pyStrOptS s.locationCurrent
        ++ "&z=" ++ toString s.mapZoom) }

/-- `update_coordinates_and_distance` (sensor.py:1709-1741): the
`"lat,lon"` strings for the current / previous / home coordinates, each
built only when both components are present. -/
def buildLocationStrings (s : PlacesState) : PlacesState :=
  let cur := pyStrQ (s.latitude.getD 0) ++ "," ++ pyStrQ (s.longitude.getD 0)
  let prev := pyStrQ (s.latitudeOld.getD 0) ++ "," ++ pyStrQ (s.longitudeOld.getD 0)
  let home := pyStrQ (s.homeLatitude.getD 0) ++ "," ++ pyStrQ (s.homeLongitude.getD 0)
  let s := if ¬ blankQ s.latitude ∧ ¬ blankQ s.longitude then
      { s with locationCurrent := some cur }
    else s
  let s := if ¬ blankQ s.latitudeOld ∧ ¬ blankQ s.longitudeOld then
      { s with locationPrevious := some prev }
    else s
  if ¬ blankQ s.homeLatitude ∧ ¬ blankQ s.homeLongitude then
    { s with homeLocation := some home }
  else s

/-- `update_coordinates_and_distance` (sensor.py:1749-1777): outside a zone
a known place name becomes `last_place_name`; inside a zone the zone
display name does; otherwise the prior value is kept. -/
def resolveLastPlaceName (s : PlacesState) : PlacesState :=
  if ¬ in_zone s then
    if ¬ blankS s.placeName then { s with lastPlaceName := getS s.placeName } else s
  else
    { s with lastPlaceName := getS s.devicetrackerZoneName }

/-- `update_coordinates_and_distance` (sensor.py:1809-1827): the
direction-of-travel classification.  `ext.deviationKm` is the float the
`self.haversine(latitude_old, longitude_old, latitude, longitude)` call
returned; comparing a `None` previous distance raises `TypeError`. -/
def directionStep (s : PlacesState) (ext : ExternalInputs) (last_distance_m : Option ℚ) :
    Except String PlacesState :=
  if ¬ blankQ s.latitudeOld ∧ ¬ blankQ s.longitudeOld then
    if ext.deviationKm ≤ 0.2 then
      .ok { s with directionOfTravel := some "stationary" }
    else
      match last_distance_m, s.distanceFromHomeM with
      | some lastd, some newd =>
        if lastd > newd then
          .ok { s with directionOfTravel := some "towards home" }
        else if lastd < newd then
          .ok { s with directionOfTravel := some "away from home" }
        else
          .ok { s with directionOfTravel := some "stationary" }
      | _, _ => .error "TypeError"
  else
    .ok { s with directionOfTravel := some "stationary" }

/-- The info log at sensor.py:1851 evaluates
`get_attr(CONF_HOME_ZONE).split(".")[1]`: `AttributeError` on a blank home
zone, `IndexError` when it has no dot. -/
def homeZoneLogCheck (s : PlacesState) : Except String PlacesState :=
  match getS s.homeZone with
  | none => .error "AttributeError"
  | some hz =>
    match pySplit hz "." with
    | _ :: _ :: _ => .ok s
    | _ => .error "IndexError"

/-- `update_coordinates_and_distance` (sensor.py:1863-1880): distance
traveled since the previous update (`0` without previous coordinates),
with the mile figure derived when set. -/
def distanceTraveledStep (s : PlacesState) (ext : ExternalInputs) : PlacesState :=
  let s := { s with distanceTraveledM := some 0 }
  if ¬ blankQ s.latitudeOld ∧ ¬ blankQ s.longitudeOld then
    let s := { s with distanceTraveledM := some ext.distanceTraveledM }
    if ¬ blankQ s.distanceTraveledM then
      { s with distanceTraveledMi := some (pyRound (ext.distanceTraveledM / 1609) 3) }
    else s
  else s

/-- `update_coordinates_and_distance` (sensor.py:1785-1887), the branch
taken when current and home coordinates are all present: distance from
home (`ext.distanceFromHomeM` is the `distance()` result) with km/mi
figures, direction of travel, the home-zone log access, and distance
traveled. -/
def homeDistanceKmMi (s : PlacesState) (ext : ExternalInputs) : PlacesState :=
  let s := { s with distanceFromHomeM := some ext.distanceFromHomeM }
  if ¬ blankQ s.distanceFromHomeM then
    { s with
      distanceFromHomeKm := some (pyRound (ext.distanceFromHomeM / 1000) 3)
      distanceFromHomeMi := some (pyRound (ext.distanceFromHomeM / 1609) 3) }
  else s

/-- sensor.py:1791-1887 continued: direction of travel, the home-zone log
access and distance traveled, after the distance-from-home figures. -/
def homeDistanceBlock (s : PlacesState) (ext : ExternalInputs) (last_distance_m : Option ℚ) :
    Except String PlacesState :=
  (directionStep (homeDistanceKmMi s ext) ext last_distance_m).bind (fun s =>
    (homeZoneLogCheck s).map (fun s => distanceTraveledStep s ext))

/-- `update_coordinates_and_distance` (sensor.py:1706): location strings,
`last_place_name`, then the distance/direction block; the pass may not
proceed (`False`) when a current or home coordinate is missing
(sensor.py:1888-1907). -/
def update_coordinates_and_distance (s : PlacesState) (ext : ExternalInputs) :
    Except String (Bool × PlacesState) :=
  let last_distance_m := s.distanceFromHomeM
  let st := resolveLastPlaceName (buildLocationStrings s)
  if ¬ blankQ st.latitude ∧ ¬ blankQ st.longitude
      ∧ ¬ blankQ st.homeLatitude ∧ ¬ blankQ st.homeLongitude then
    (homeDistanceBlock st ext last_distance_m).map (fun t => (true, t))
  else
    .ok (false, st)

/-- `check_for_updated_entity_name` (sensor.py:810): adopt the host's
friendly name when it differs from the stored one. -/
def check_for_updated_entity_name (s : PlacesState) (ext : ExternalInputs) : PlacesState :=
  match ext.friendlyName with
  | some fn => if getS s.name ≠ some fn then { s with name := some fn } else s
  | none => s

/-- `do_update` (sensor.py:1924-1929): capture of the previous state, with
the `" (since HH:MM)"` suffix sliced off (`[:-14]`) when `show_time` is
configured. -/
def capturePreviousState (s : PlacesState) : PlacesState :=
  if ¬ blankS s.nativeValue ∧ s.showTime then
    let nv := (getS s.nativeValue).getD ""
    { s with previousState := some (pyTake nv (nv.length - 14)) }
  else
    { s with previousState := getS s.nativeValue }

/-- `do_update` (sensor.py:1930-1933): rotation of the stored coordinates
into the `_old` attributes. -/
def captureOldCoords (s : PlacesState) : PlacesState :=
  let s := if ¬ blankQ s.latitude then { s with latitudeOld := s.latitude } else s
  if ¬ blankQ s.longitude then { s with longitudeOld := s.longitude } else s

/-- `do_update` (sensor.py:1952-1977): the fresh tracker coordinates, when
they parse as floats. -/
def readTrackerCoordinates (s : PlacesState) (ext : ExternalInputs) : PlacesState :=
  let s := match ext.trackerLatitude with
    | some q => { s with latitude := some q }
    | none => s
  match ext.trackerLongitude with
  | some q => { s with longitude := some q }
  | none => s

/-- `get_gps_accuracy` (sensor.py:1121). -/
def get_gps_accuracy (s : PlacesState) (ext : ExternalInputs) : PlacesState :=
  match ext.gpsAccuracy with
  | some q => { s with gpsAccuracy := some q }
  | none => s

/-- `get_zone_details` (sensor.py:860): the tracker state becomes the zone
id; the zone's display name (or, failing that, the zone id) becomes the
zone name, title-cased when all lower-case. -/
def get_zone_details (s : PlacesState) (ext : ExternalInputs) : PlacesState :=
  let s := { s with devicetrackerZone := some ext.zone }
  let s := match ext.zoneName with
    | some zn => { s with devicetrackerZoneName := some zn }
    | none => { s with devicetrackerZoneName := getS s.devicetrackerZone }
  if ¬ blankS s.devicetrackerZoneName
      ∧ pyLower ((getS s.devicetrackerZoneName).getD "") = (getS s.devicetrackerZoneName).getD ""
  then
    { s with devicetrackerZoneName := some (pyTitle ((getS s.devicetrackerZoneName).getD "")) }
  else
    s

/-- The steps of `do_update` before the resolver runs (sensor.py:1916-1980):
entity-name refresh, attribute cleanup, previous-state capture, rotation of
the old coordinates, the fresh tracker / GPS-accuracy / zone readings. -/
def doUpdatePre (s : PlacesState) (ext : ExternalInputs) : PlacesState :=
  get_zone_details
    (get_gps_accuracy
      (readTrackerCoordinates
        (captureOldCoords
          (capturePreviousState (cleanup_attributes (check_for_updated_entity_name s ext))))
        ext)
      ext)
    ext

/-- `_reset_attributes` (sensor.py:2198) followed by `get_map_link` and the
geocode fetch whose result is stored in `ATTR_OSM_DICT`
(sensor.py:2002-2025).  Modelled from the spec: `RESET_ATTRIBUTE_LIST`
lives in `const.py`, which is not under `src/`; §4.7 step 6 resets the
transient place/geocode attributes and zeroes the skip counter. -/
def resetAndFetch (s : PlacesState) (ext : ExternalInputs) : PlacesState :=
  let s := { s with
    placeType := none, placeCategory := none, placeName := none,
    placeNeighbourhood := none, streetNumber := none, street := none,
    streetRef := none, city := none, postalTown := none, region := none,
    stateAbbr := none, county := none, country := none, postalCode := none,
    formattedAddress := none, osmId := none, osmType := none,
    osmDict := none, osmDetailsDict := none, wikidataId := none,
    wikidataDict := none,
    updatesSkipped := 0 }
  let s := get_map_link s
  { s with osmDict := some ext.osmResult }

/-- `get_driving_status` (sensor.py:1159). -/
def get_driving_status (s : PlacesState) : PlacesState :=
  { s with isDriving :=
      ¬ in_zone s ∧ getS s.directionOfTravel ≠ some "stationary"
        ∧ (getS s.placeCategory = some "highway" ∨ getS s.placeType = some "motorway") }

/-- `get_extended_attr` (sensor.py:1592-1618), the store updates: the
details dict, the `extratags.wikidata` id and the linked-data dict. -/
def extendedDetailsApply (s : PlacesState) (ext : ExternalInputs) : PlacesState :=
  let st := { s with osmDetailsDict := some ext.osmDetails }
  if ¬ (getDict2 st.osmDetailsDict).isNone then
    let st := if (ext.osmDetails.lookup "extratags").isSome
        ∧ (((ext.osmDetails.lookup "extratags").getD []).lookup "wikidata").isSome then
        { st with wikidataId := ((ext.osmDetails.lookup "extratags").getD []).lookup "wikidata" }
      else st
    let st := { st with wikidataDict := some [] }
    if ¬ blankS st.wikidataId then
      { st with wikidataDict := some ext.wikidataDict }
    else
      st
  else
    st

/-- `get_extended_attr` (sensor.py:1559) proper: with both OSM ids known,
an OSM type other than node/way/relation leaves `osm_type_abbr` unassigned
and the URL build at sensor.py:1572 raises `NameError`; otherwise the
details and wikidata stores are applied. -/
def get_extended_attr (s : PlacesState) (ext : ExternalInputs) : Except String PlacesState :=
  if ¬ blankS s.osmId ∧ ¬ blankS s.osmType then
    if ¬ (pyLower ((getS s.osmType).getD "") ∈ ["node", "way", "relation"]) then
      .error "NameError"
    else
      .ok (extendedDetailsApply s ext)
  else
    .ok s

/-- `"%02d:%02d" % (now.hour, now.minute)` (sensor.py:2110). -/
def currentTimeStr (ext : ExternalInputs) : String :=
  pyFmt02 ext.nowHour.val ++ ":" ++ pyFmt02 ext.nowMinute.val

/-- The parse-and-format stage of `do_update` (sensor.py:2028-2111): place
parsing, `last_place_name` retention, display-option parsing, driving
status, and the display value via the formatted-place or display-options
builder (or the zone fallbacks). -/
def postParsePhase (s : PlacesState) (ext : ExternalInputs) (prev_last_place_name : Option String) :
    Except String PlacesState := do
  let mut st ← parse_osm_dict s
  if st.initialUpdate then
    st := { st with lastPlaceName := prev_last_place_name }
  else if getS st.lastPlaceName = getS st.placeName
      ∨ getS st.lastPlaceName = getS st.devicetrackerZoneName then
    st := { st with lastPlaceName := prev_last_place_name }
  let mut display_options : List String := []
  if ¬ blankS st.options then
    display_options := (pySplit ((getS st.options).getD "") ",").map pyStrip
  st := { st with displayOptions := some display_options }
  st := get_driving_status st
  if "formatted_place" ∈ display_options then
    st ← build_formatted_place st
    st := { st with nativeValue := getS st.formattedPlace }
  else if ¬ in_zone st then
    st ← build_state_from_display_options st
  else if ("zone" ∈ display_options ∧ ¬ blankS st.devicetrackerZone)
      ∨ blankS st.devicetrackerZoneName then
    st := { st with nativeValue := getS st.devicetrackerZone }
  else if ¬ blankS st.devicetrackerZoneName then
    st := { st with nativeValue := getS st.devicetrackerZoneName }
  st := { st with lastChanged := some ext.nowStr }
  pure st

/-- The commit test of `do_update` (sensor.py:2116-2132): the new state is
committed when it differs materially from the previous state (also checked
against the raw zone id), or either is blank, or this is the initial
update.  The caller guarantees a non-blank `devicetracker_zone`
(sensor.py:1986). -/
def commitCondition (s : PlacesState) : Bool :=
  let p := getS s.previousState
  let n := getS s.nativeValue
  let z := (getS s.devicetrackerZone).getD ""
  (p.isSome && n.isSome
    && (pyStrip (pyLower (p.getD "")) != pyStrip (pyLower (n.getD "")))
    && (pyStrip (pyLower (pyReplace (p.getD "") " " "")) != pyStrip (pyLower (n.getD "")))
    && (pyStrip (pyLower (p.getD "")) != pyStrip (pyLower z)))
  || p.isNone || n.isNone || s.initialUpdate

/-- The truncation of the committed native value (sensor.py:2138-2151): to
241 characters plus `" (since HH:MM)"` under `show_time`, else to 255;
a blank value is cleared instead. -/
def truncateNativeValue (s : PlacesState) (ext : ExternalInputs) : PlacesState :=
  let withTime := pyTake ((getS s.nativeValue).getD "") (255 - 14)
    ++ " (since " ++ currentTimeStr ext ++ ")"
  if ¬ blankS s.nativeValue then
    if s.showTime then
      { s with nativeValue := some withTime }
    else
      { s with nativeValue := some (pyTake ((getS s.nativeValue).getD "") 255) }
  else
    { s with nativeValue := none }

/-- The commit stage of `do_update` (sensor.py:2135-2169): optional
extended-attribute fetches, blank-attribute cleanup, truncation of the
native value, and clearing of the initial-update flag. -/
def commitPhase (s : PlacesState) (ext : ExternalInputs) : Except String PlacesState :=
  (if s.extendedAttr then get_extended_attr s ext else .ok s).map (fun st =>
    let st := truncateNativeValue (cleanup_attributes st) ext
    { st with initialUpdate := false })

/-- `do_update` (sensor.py:1909): one full update pass.  The pre-pass store
is snapshotted (`previous_attr = copy.deepcopy(...)`); when the resolver
cannot proceed, the gate declines, the zone is blank, or the commit test
fails, the snapshot is restored; `last_updated` is stamped in every case
(sensor.py:2189). -/
def do_update (s : PlacesState) (ext : ExternalInputs) : Except String PlacesState := do
  let previous_attr := s
  let t0 := doUpdatePre s ext
  let prev_last_place_name := getS t0.lastPlaceName
  let (p1, t1) ← update_coordinates_and_distance t0 ext
  let (proceed, t2) ← if p1 then determine_if_update_needed t1 else pure (false, t1)
  if proceed ∧ ¬ blankS t2.devicetrackerZone then
    let t3 := resetAndFetch t2 ext
    if ¬ (getD t3.osmDict).isNone then
      let t4 ← postParsePhase t3 ext prev_last_place_name
      if commitCondition t4 then
        let t5 ← commitPhase t4 ext
        pure { t5 with lastUpdated := some ext.nowStr }
      else
        pure { previous_attr with lastUpdated := some ext.nowStr }
    else
      pure { t3 with lastUpdated := some ext.nowStr }
  else
    pure { previous_attr with lastUpdated := some ext.nowStr }

/-- A parsed JSON value, as `json.loads` can produce it. -/
inductive PyJson where
  | obj (fields : List (String × PyJson))
  | arr (elems : List PyJson)
  | str (s : String)
  | num (q : ℚ)
  | bool (b : Bool)
  | null
  deriving Repr

/-- The outcome of the `requests.get` call in `get_dict_from_url`: one of
the caught exception classes, or a response with its status truthiness
(`Response.__bool__`), body text, and the `json.loads` result for that
body (`none` models `JSONDecodeError`). -/
inductive HttpResult where
  | timeout
  | osError
  | newConnectionError
  | otherException
  | resp (ok : Bool) (text : String) (parsed : Option PyJson)
  deriving Repr

/-- Python `"error_message" in get_dict` for an arbitrary `json.loads`
result: key membership for an object, element membership for a list,
substring for a string, `TypeError` for a number, boolean or `None`. -/
def errorMessageMem : PyJson → Except String Bool
  | .obj fields => .ok (fields.any (fun kv => kv.1 = "error_message"))
  | .arr elems => .ok (elems.any (fun e => match e with
      | .str s => s = "error_message"
      | _ => false))
  | .str s => .ok (pyInStr "error_message" s)
  | .num _ => .error "TypeError"
  | .bool _ => .error "TypeError"
  | .null => .error "TypeError"

/-- `get_dict_from_url` (sensor.py:965): every caught transport exception
and every decode failure yields `{}`; a JSON result containing
`error_message` yields `{}`; otherwise the parsed value is returned.  The
`"error_message" in get_dict` test itself can raise. -/
def get_dict_from_url (r : HttpResult) : Except String PyJson :=
  match r with
  | .timeout => .ok (.obj [])
  | .osError => .ok (.obj [])
  | .newConnectionError => .ok (.obj [])
  | .otherException => .ok (.obj [])
  | .resp ok text parsed =>
    if ok ∧ text ≠ "" then
      match parsed with
      | none => .ok (.obj [])
      | some v =>
        match errorMessageMem v with
        | .error e => .error e
        | .ok true => .ok (.obj [])
        | .ok false => .ok v
    else
      .ok (.obj [])

/-- `math.radians` (degrees to radians). -/
noncomputable def radiansR (x : ℝ) : ℝ := x * Real.pi / 180

/-- `haversine` (sensor.py:759): the great-circle distance in kilometers
between two points given as `(lon1, lat1, lon2, lat2)` in decimal degrees,
with Earth radius 6371 km. -/
noncomputable def haversine (lon1 lat1 lon2 lat2 : ℝ) : ℝ :=
  let lon1 := radiansR lon1
  let lat1 := radiansR lat1
  let lon2 := radiansR lon2
  let lat2 := radiansR lat2
  let dlon := lon2 - lon1
  let dlat := lat2 - lat1
  let a := Real.sin (dlat / 2) ^ 2 +
    Real.cos lat1 * Real.cos lat2 * Real.sin (dlon / 2) ^ 2
  let c := 2 * Real.arcsin (Real.sqrt a)
  c * 6371

/-- The direction-of-travel classification of
`update_coordinates_and_distance` (sensor.py:1812-1825) over real
coordinates, with the deviation computed exactly as the source calls it:
`self.haversine(latitude_old, longitude_old, latitude, longitude)`, the
latitudes passed into the `lon1`/`lon2` positions of the declared
signature. -/
noncomputable def directionOfTravelReal (latitude_old longitude_old latitude longitude
    last_distance_m new_distance_m : ℝ) : String :=
  if haversine latitude_old longitude_old latitude longitude ≤ 0.2 then
    "stationary"
  else if last_distance_m > new_distance_m then
    "towards home"
  else if last_distance_m < new_distance_m then
    "away from home"
  else
    "stationary"

/-! ## The update gate (claims C2, C3) -/

/-- Any rational below ten truncates (Python `int()`) to an integer below
ten. -/
lemma pyInt_lt_of_lt_ten {d : ℚ} (h : d < 10) : pyInt d < 10 := by
  unfold pyInt
  split
  · have hle : (⌈d⌉ : ℤ) ≤ 0 := Int.ceil_le.mpr (by push_cast; linarith)
    omega
  · exact Int.floor_lt.mpr (by exact_mod_cast h)

/-- C2 (amended): with GPS accuracy not exactly 0, the initial-update flag
clear and the location strings differing, the gate returns `true` whenever
the *truncated* distance traveled is positive (`int(distance) > 0`, i.e.
at least 1 m — not merely `≥ 0` as the spec soll) and more than three
updates were skipped, even when the distance is below 10 m. -/
theorem determine_if_update_needed_forced_refresh
    (s : PlacesState) (d : ℚ)
    (hacc : s.gpsAccuracy ≠ some 0)
    (hinit : s.initialUpdate = false)
    (hloc : getS s.locationCurrent ≠ getS s.locationPrevious)
    (hdist : s.distanceTraveledM = some d)
    (hpos : 0 < pyInt d)
    (hskip : 3 < s.updatesSkipped) :
    determine_if_update_needed s = .ok (true, s) := by
  unfold determine_if_update_needed
  rw [if_neg hacc, hinit]
  simp only [Bool.false_eq_true, if_false]
  rw [if_neg hloc, hdist]
  have h4 : 0 < pyInt d ∧ 3 < s.updatesSkipped := ⟨hpos, hskip⟩
  simp only [if_pos h4]

/-- C2, counterexample to the claim as stated: with distance traveled
`0 ≥ 0` and four skipped updates (`> 3`), GPS accuracy absent, the
initial-update flag clear and differing location strings, the gate returns
`false` (and increments the skip counter) because the source tests
`int(distance) > 0`, not `≥ 0`. -/
theorem determine_if_update_needed_forced_refresh_counterexample :
    (0 : ℚ) ≤ 0 ∧ (3 : ℤ) < 4 ∧
    determine_if_update_needed
        { initialUpdate := false, locationCurrent := some "40,-75",
          locationPrevious := some "41,-75", distanceTraveledM := some 0,
          updatesSkipped := 4 } =
      .ok (false,
        { initialUpdate := false, locationCurrent := some "40,-75",
          locationPrevious := some "41,-75", distanceTraveledM := some 0,
          updatesSkipped := 5 }) :=
  ⟨le_refl 0, by norm_num, rfl⟩

/-- A concrete gate state for the C2 witness: 50 m traveled, four skips. -/
def gateForcedRefreshInput : PlacesState :=
  { initialUpdate := false, locationCurrent := some "40,-75",
    locationPrevious := some "41,-75", distanceTraveledM := some 50,
    updatesSkipped := 4 }

/-- C2, witness: the amended theorem applied at a concrete input. -/
theorem determine_if_update_needed_forced_refresh_witness :
    determine_if_update_needed gateForcedRefreshInput = .ok (true, gateForcedRefreshInput) :=
  determine_if_update_needed_forced_refresh gateForcedRefreshInput 50
    (by decide) rfl (by decide) rfl (by decide) (by decide)

/-- C3: with GPS accuracy not exactly 0, the initial-update flag clear and
the location strings differing, a distance traveled below 10 m with at
most three skips makes the gate return `false` with the skip counter
incremented by exactly one; and (second conjunct) no branch of the gate
other than that debounce branch ever changes the counter. -/
theorem determine_if_update_needed_debounce
    (s : PlacesState) (d : ℚ)
    (hacc : s.gpsAccuracy ≠ some 0)
    (hinit : s.initialUpdate = false)
    (hloc : getS s.locationCurrent ≠ getS s.locationPrevious)
    (hdist : s.distanceTraveledM = some d)
    (hlt : d < 10)
    (hskip : s.updatesSkipped ≤ 3) :
    determine_if_update_needed s =
      .ok (false, { s with updatesSkipped := s.updatesSkipped + 1 }) ∧
    ∀ s' b t, determine_if_update_needed s' = .ok (b, t) →
      t.updatesSkipped = s'.updatesSkipped ∨
        (b = false ∧ t = { s' with updatesSkipped := s'.updatesSkipped + 1 }) := by
  constructor
  · unfold determine_if_update_needed
    rw [if_neg hacc, hinit]
    simp only [Bool.false_eq_true, if_false]
    rw [if_neg hloc, hdist]
    have h4 : ¬ (0 < pyInt d ∧ 3 < s.updatesSkipped) := fun hc => absurd hc.2 (not_lt.mpr hskip)
    simp only [if_neg h4, if_pos (pyInt_lt_of_lt_ten hlt)]
  · intro s' b t h
    unfold determine_if_update_needed at h
    split at h
    · simp only [Except.ok.injEq, Prod.mk.injEq] at h
      left; rw [← h.2]
    · split at h
      · simp only [Except.ok.injEq, Prod.mk.injEq] at h
        left; rw [← h.2]
      · split at h
        · simp only [Except.ok.injEq, Prod.mk.injEq] at h
          left; rw [← h.2]
        · split at h
          · exact absurd h (by simp)
          · split at h
            · simp only [Except.ok.injEq, Prod.mk.injEq] at h
              left; rw [← h.2]
            · split at h
              · simp only [Except.ok.injEq, Prod.mk.injEq] at h
                right; exact ⟨h.1.symm, h.2.symm⟩
              · simp only [Except.ok.injEq, Prod.mk.injEq] at h
                left; rw [← h.2]

/-- A concrete gate state for the C3 witness: 5 m traveled, two skips. -/
def gateDebounceInput : PlacesState :=
  { initialUpdate := false, locationCurrent := some "40,-75",
    locationPrevious := some "41,-75", distanceTraveledM := some 5,
    updatesSkipped := 2 }

/-- C3, witness: the debounce theorem applied at a concrete input. -/
theorem determine_if_update_needed_debounce_witness :
    determine_if_update_needed gateDebounceInput =
      .ok (false, { gateDebounceInput with updatesSkipped := 2 + 1 }) :=
  (determine_if_update_needed_debounce gateDebounceInput 5
    (by decide) rfl (by decide) rfl (by norm_num) (by decide)).1

/-! ## The place parser (claims C4, C5, C6) -/

deriving instance DecidableEq for Except

/-- C4: the street-ref cleanup evaluated at the claim's scenario
(`place_category = "highway"`, `namedetails.ref = "I-90;US-20"`): the code
stores `"I"` — `street_ref[:1]`, the first character — not `"I-90"`,
because the walrus expression binds the boolean `find(char) != -1` and
`int(True) = 1` is the only index ever collected. -/
theorem parse_osm_dict_street_ref_first_char :
    (parse_osm_dict
        { osmDict := some
            { category? := some "highway", address? := some [],
              namedetails? := some [("ref", "I-90;US-20")] } }).map
        (fun t => t.streetRef) =
      .ok (some "I") ∧ ("I" : String) ≠ "I-90" :=
  ⟨by decide, by decide⟩

/-- C6, counterexample: a geocode response carrying only `display_name`
(a subset of the claim's optional keys, with `address` and `namedetails`
absent) makes `parse_osm_dict` raise `TypeError` at the unguarded
`"name" in osm_dict.get("namedetails")` — it does not run to
completion. -/
theorem parse_osm_dict_missing_namedetails_raises :
    parse_osm_dict
        { osmDict := some { display_name? := some "12 Main St, Springfield, IL, USA" } } =
      .error "TypeError" :=
  by decide

/-- The `type` block of `parse_osm_dict` cannot raise when `address` is
present. -/
lemma parse_osm_type_step_ok (d : OSMDict) (st : PlacesState) {addr}
    (haddr : d.address? = some addr) :
    ∃ u, parse_osm_type_step d st = .ok u := by
  unfold parse_osm_type_step
  rw [haddr]
  split
  · simp only []
    split <;> split <;> exact ⟨_, rfl⟩
  · exact ⟨_, rfl⟩

/-- The `category` block of `parse_osm_dict` cannot raise when `address`
is present. -/
lemma parse_osm_category_step_ok (d : OSMDict) (st : PlacesState) {addr}
    (haddr : d.address? = some addr) :
    ∃ u, parse_osm_category_step d st = .ok u := by
  unfold parse_osm_category_step
  rw [haddr]
  split
  · simp only []
    split <;> exact ⟨_, rfl⟩
  · exact ⟨_, rfl⟩

/-- The `namedetails.name` block cannot raise when `namedetails` is
present. -/
lemma parse_osm_namedetails_step_ok (d : OSMDict) (st : PlacesState) {nd}
    (hnd : d.namedetails? = some nd) :
    ∃ u, parse_osm_namedetails_step d st = .ok u := by
  unfold parse_osm_namedetails_step
  rw [hnd]
  simp only []
  split <;> exact ⟨_, rfl⟩

/-- The language-override block cannot raise when `namedetails` is
present. -/
lemma parse_osm_language_step_ok (d : OSMDict) (st : PlacesState) {nd}
    (hnd : d.namedetails? = some nd) :
    ∃ u, parse_osm_language_step d st = .ok u := by
  unfold parse_osm_language_step
  split
  · rw [hnd]
    simp only []
    split <;> exact ⟨_, rfl⟩
  · exact ⟨_, rfl⟩

/-- The direct address mappings cannot raise when `address` is present. -/
lemma parse_osm_address_step_ok (d : OSMDict) (st : PlacesState) {addr}
    (haddr : d.address? = some addr) :
    ∃ u, parse_osm_address_step d st = .ok u := by
  unfold parse_osm_address_step
  rw [haddr]
  simp only []
  exact ⟨_, rfl⟩

/-- The `ISO3166-2-lvl4` block cannot raise when `address` is present and
any such value splits on `"-"` into at least two parts. -/
lemma parse_osm_iso_step_ok (d : OSMDict) (st : PlacesState) {addr}
    (haddr : d.address? = some addr)
    (hiso : ∀ v, addr.lookup "ISO3166-2-lvl4" = some v → 2 ≤ (pySplit v "-").length) :
    ∃ u, parse_osm_iso_step d st = .ok u := by
  unfold parse_osm_iso_step
  rw [haddr]
  simp only []
  split
  · rename_i hsome
    obtain ⟨v, hv⟩ := Option.isSome_iff_exists.mp hsome
    have h2 := hiso v hv
    rw [hv]
    simp only [Option.getD_some]
    rcases hsp : pySplit v "-" with _ | ⟨x, _ | ⟨y, rest⟩⟩
    · rw [hsp] at h2; simp at h2
    · rw [hsp] at h2; simp at h2
    · exact ⟨_, rfl⟩
  · exact ⟨_, rfl⟩

/-- The county/country/postcode mappings cannot raise when `address` is
present. -/
lemma parse_osm_address_tail_step_ok (d : OSMDict) (st : PlacesState) {addr}
    (haddr : d.address? = some addr) :
    ∃ u, parse_osm_address_tail_step d st = .ok u := by
  unfold parse_osm_address_tail_step
  rw [haddr]
  simp only []
  exact ⟨_, rfl⟩

/-- The street-ref block never raises: the `min([])` case is unreachable
because the delimiter-presence guard makes the filtered list non-empty. -/
lemma parse_osm_street_ref_step_ok (d : OSMDict) (st : PlacesState) :
    ∃ u, parse_osm_street_ref_step d st = .ok u := by
  unfold parse_osm_street_ref_step
  split
  · simp only []
    split
    · rename_i hany
      rcases hl : (excludeChars.filter
          (fun c => pyInStr c (((d.namedetails?.getD []).lookup "ref").getD ""))).map
          (fun _ => (1 : ℕ)) with _ | ⟨n, rest⟩
      · exfalso
        rw [List.any_eq_true] at hany
        obtain ⟨c, hc, hpc⟩ := hany
        have hmem : c ∈ excludeChars.filter
            (fun c => pyInStr c (((d.namedetails?.getD []).lookup "ref").getD "")) :=
          List.mem_filter.mpr ⟨hc, hpc⟩
        have hone := List.mem_map_of_mem (fun _ => (1 : ℕ)) hmem
        rw [hl] at hone
        exact absurd hone (List.not_mem_nil _)
      · exact ⟨_, rfl⟩
    · exact ⟨_, rfl⟩
  · exact ⟨_, rfl⟩

/-- C6 (amended): `parse_osm_dict` runs to completion, skipping absent
fields, for every stored geocode response in which the `address` and
`namedetails` sub-objects are both present and any `ISO3166-2-lvl4` value
contains a dash; when either sub-object is absent the unguarded membership
tests raise `TypeError` (see the counterexample), and a dash-free
`ISO3166-2-lvl4` raises `IndexError`. -/
theorem parse_osm_dict_ok_with_subobjects
    (s : PlacesState) (d : OSMDict) (addr nd : List (String × String))
    (hd : s.osmDict = some d)
    (haddr : d.address? = some addr)
    (hnd : d.namedetails? = some nd)
    (hiso : ∀ v, addr.lookup "ISO3166-2-lvl4" = some v → 2 ≤ (pySplit v "-").length) :
    ∃ t, parse_osm_dict s = .ok t := by
  have hne : d.isEmptyDict = false := by
    unfold OSMDict.isEmptyDict
    rw [haddr]
    simp
  unfold parse_osm_dict
  rw [hd]
  simp only [getD, hne, Bool.false_eq_true, if_false]
  obtain ⟨t1, h1⟩ := parse_osm_type_step_ok d s haddr
  obtain ⟨t2, h2⟩ := parse_osm_category_step_ok d t1 haddr
  obtain ⟨t3, h3⟩ := parse_osm_namedetails_step_ok d t2 hnd
  obtain ⟨t4, h4⟩ := parse_osm_language_step_ok d t3 hnd
  obtain ⟨t5, h5⟩ := parse_osm_address_step_ok d (parse_osm_native_step t4) haddr
  obtain ⟨t6, h6⟩ := parse_osm_iso_step_ok d t5 haddr hiso
  obtain ⟨t7, h7⟩ := parse_osm_address_tail_step_ok d t6 haddr
  obtain ⟨t8, h8⟩ := parse_osm_street_ref_step_ok d (parse_osm_toplevel_step d t7)
  refine ⟨t8, ?_⟩
  simp only [bind, Except.bind, h1, h2, h3, h4, h5, h6, h7, h8]

/-- C6, witness: the amended theorem applied to a concrete response with
`address` and `namedetails` present. -/
theorem parse_osm_dict_ok_with_subobjects_witness :
    ∃ t, parse_osm_dict
        { osmDict := some
            { address? := some [("ISO3166-2-lvl4", "US-IL")], namedetails? := some [] } } =
      .ok t :=
  parse_osm_dict_ok_with_subobjects _ _ _ _ rfl rfl rfl
    (by
      intro v hv
      rw [show List.lookup "ISO3166-2-lvl4" [("ISO3166-2-lvl4", "US-IL")] = some "US-IL"
        from rfl] at hv
      injection hv with h
      subst h
      decide)

/-- The geocode response of the spec's display-options scenario, with an
(empty) `namedetails` sub-object so that `parse_osm_dict` completes. -/
def scenarioDict : OSMDict :=
  { address? := some [("road", "Main St"), ("house_number", "12"), ("city", "Springfield"),
      ("state", "IL"), ("country", "USA"), ("postcode", "62704")],
    display_name? := some "12 Main St, Springfield, IL, USA",
    namedetails? := some [] }

/-- The entity state of the display-options scenario: not in a zone,
display options `"street,city,state"`. -/
def scenarioState : PlacesState :=
  { initialUpdate := true, latitude := some 40, longitude := some (-75),
    devicetrackerZone := some "not_home", devicetrackerZoneName := some "Not Home",
    options := some "street,city,state" }

/-- The external readings of the display-options scenario. -/
def scenarioExt : ExternalInputs :=
  { nowHour := 17, nowMinute := 5, nowStr := "2026-10-12 17:05:00", zone := "not_home",
    osmResult := scenarioDict }

/-- C5, counterexample: on the scenario (address road "Main St", house
number "12", city "Springfield", state "IL", options exactly
`"street,city,state"`, not in a zone) the parse-and-format stage produces
`"Main St, Springfield, IL"`, not the claimed
`"12 Main St, Springfield, IL"` — the `street_number` option token is not
configured, so the house number is omitted. -/
theorem scenario_display_options_counterexample :
    (postParsePhase (resetAndFetch scenarioState scenarioExt) scenarioExt none).map
        (fun t => t.nativeValue) =
      .ok (some "Main St, Springfield, IL") ∧
    ("Main St, Springfield, IL" : String) ≠ "12 Main St, Springfield, IL" :=
  ⟨by decide, by decide⟩

/-- C5 (amended): on the same scenario the display-options builder yields
`native_value = "Main St, Springfield, IL"`; the street number would only
be included if the `street_number` option token were configured. -/
theorem scenario_display_options_amended :
    (postParsePhase (resetAndFetch scenarioState scenarioExt) scenarioExt none).map
        (fun t => t.nativeValue) =
      .ok (some "Main St, Springfield, IL") :=
  by decide

/-! ## The fetch wrapper (claim C8) -/

/-- C8, counterexample: a response whose body is the valid JSON scalar
`42` reaches `"error_message" in get_dict` with an `int`, which raises
`TypeError` — the exception propagates to the caller instead of an empty
dictionary being returned. -/
theorem get_dict_from_url_counterexample :
    get_dict_from_url (.resp true "42" (some (.num 42))) = .error "TypeError" :=
  rfl

/-- C8 (amended): `get_dict_from_url` returns `{}` for every caught
transport exception, for an undecodable body, and for a JSON object
containing `error_message`; it returns the parsed value for an OK,
non-empty, well-formed body without `error_message`; and it never raises
*except* when the parsed JSON is a bare number, boolean or null, in which
case the `error_message` membership test raises `TypeError`. -/
theorem get_dict_from_url_amended :
    (get_dict_from_url .timeout = .ok (.obj []) ∧
     get_dict_from_url .osError = .ok (.obj []) ∧
     get_dict_from_url .newConnectionError = .ok (.obj []) ∧
     get_dict_from_url .otherException = .ok (.obj [])) ∧
    (∀ ok text, get_dict_from_url (.resp ok text none) = .ok (.obj [])) ∧
    (∀ ok text fields, fields.any (fun kv => kv.1 = "error_message") →
        get_dict_from_url (.resp ok text (some (.obj fields))) = .ok (.obj [])) ∧
    (∀ text fields, text ≠ "" → ¬ (fields.any (fun kv => kv.1 = "error_message") = true) →
        get_dict_from_url (.resp true text (some (.obj fields))) = .ok (.obj fields)) ∧
    (∀ r : HttpResult,
        (∀ ok text q, r ≠ .resp ok text (some (.num q))) →
        (∀ ok text b, r ≠ .resp ok text (some (.bool b))) →
        (∀ ok text, r ≠ .resp ok text (some .null)) →
        ∃ v, get_dict_from_url r = .ok v) := by
  refine ⟨⟨rfl, rfl, rfl, rfl⟩, ?_, ?_, ?_, ?_⟩
  · intro ok text
    simp only [get_dict_from_url]
    split <;> rfl
  · intro ok text fields herr
    simp only [get_dict_from_url]
    split
    · simp only [errorMessageMem, herr]
    · rfl
  · intro text fields htext herr
    simp only [get_dict_from_url]
    rw [if_pos ⟨trivial, htext⟩]
    rw [Bool.not_eq_true] at herr
    simp only [errorMessageMem, herr]
  · intro r hnum hbool hnull
    match r with
    | .timeout => exact ⟨_, rfl⟩
    | .osError => exact ⟨_, rfl⟩
    | .newConnectionError => exact ⟨_, rfl⟩
    | .otherException => exact ⟨_, rfl⟩
    | .resp ok text none =>
      simp only [get_dict_from_url]
      split
      · exact ⟨_, rfl⟩
      · exact ⟨_, rfl⟩
    | .resp ok text (some v) =>
      simp only [get_dict_from_url]
      split
      · match v with
        | .obj fields =>
          simp only [errorMessageMem]
          cases hany : fields.any (fun kv => decide (kv.1 = "error_message")) <;>
            exact ⟨_, rfl⟩
        | .arr elems =>
          simp only [errorMessageMem]
          cases hany : elems.any (fun e => match e with
            | .str s => decide (s = "error_message")
            | _ => false) <;> exact ⟨_, rfl⟩
        | .str s =>
          simp only [errorMessageMem]
          cases hany : pyInStr "error_message" s <;> exact ⟨_, rfl⟩
        | .num q => exact absurd rfl (hnum ok text q)
        | .bool b => exact absurd rfl (hbool ok text b)
        | .null => exact absurd rfl (hnull ok text)
      · exact ⟨_, rfl⟩

/-- C8, witness: the amended theorem applied at a concrete OK response. -/
theorem get_dict_from_url_amended_witness :
    get_dict_from_url (.resp true "x" (some (.obj [("a", .str "b")]))) =
      .ok (.obj [("a", .str "b")]) :=
  get_dict_from_url_amended.2.2.2.1 "x" [("a", .str "b")] (by decide) (by decide)


lemma except_bind_ok {α β : Type} {x : Except String α} {f : α → Except String β} {y : β}
    (h : x >>= f = .ok y) : ∃ a, x = .ok a ∧ f a = .ok y := by
  cases x with
  | error e => simp [Bind.bind, Except.bind] at h
  | ok a => exact ⟨a, rfl, by simpa [Bind.bind, Except.bind] using h⟩

lemma except_bind_ok' {α β : Type} {x : Except String α} {f : α → Except String β} {y : β}
    (h : Except.bind x f = .ok y) : ∃ a, x = .ok a ∧ f a = .ok y := by
  cases x with
  | error e => simp [Except.bind] at h
  | ok a => exact ⟨a, rfl, by simpa [Except.bind] using h⟩

lemma except_map_ok {α β : Type} {x : Except String α} {g : α → β} {y : β}
    (h : Except.map g x = .ok y) : ∃ a, x = .ok a ∧ y = g a := by
  cases x with
  | error e => simp [Except.map] at h
  | ok a => exact ⟨a, rfl, by simpa [Except.map] using (h.symm)⟩

lemma cleanup_attributes_nativeValue (s : PlacesState) :
    (cleanup_attributes s).nativeValue = getS s.nativeValue := rfl

lemma cleanup_attributes_showTime (s : PlacesState) :
    (cleanup_attributes s).showTime = s.showTime := rfl

lemma check_for_updated_entity_name_nativeValue (s : PlacesState) (ext : ExternalInputs) :
    (check_for_updated_entity_name s ext).nativeValue = s.nativeValue := by
  unfold check_for_updated_entity_name
  cases ext.friendlyName with
  | none => rfl
  | some fn => simp [apply_ite PlacesState.nativeValue]

lemma capturePreviousState_nativeValue (s : PlacesState) :
    (capturePreviousState s).nativeValue = s.nativeValue := by
  unfold capturePreviousState
  split <;> rfl

lemma captureOldCoords_nativeValue (s : PlacesState) :
    (captureOldCoords s).nativeValue = s.nativeValue := by
  unfold captureOldCoords
  simp [apply_ite PlacesState.nativeValue]

lemma readTrackerCoordinates_nativeValue (s : PlacesState) (ext : ExternalInputs) :
    (readTrackerCoordinates s ext).nativeValue = s.nativeValue := by
  unfold readTrackerCoordinates
  cases ext.trackerLatitude <;> cases ext.trackerLongitude <;> rfl

lemma get_gps_accuracy_nativeValue (s : PlacesState) (ext : ExternalInputs) :
    (get_gps_accuracy s ext).nativeValue = s.nativeValue := by
  unfold get_gps_accuracy
  cases ext.gpsAccuracy <;> rfl

lemma get_zone_details_nativeValue (s : PlacesState) (ext : ExternalInputs) :
    (get_zone_details s ext).nativeValue = s.nativeValue := by
  unfold get_zone_details
  cases ext.zoneName <;> simp [apply_ite PlacesState.nativeValue]

lemma doUpdatePre_nativeValue (s : PlacesState) (ext : ExternalInputs) :
    (doUpdatePre s ext).nativeValue = getS s.nativeValue := by
  unfold doUpdatePre
  rw [get_zone_details_nativeValue, get_gps_accuracy_nativeValue,
    readTrackerCoordinates_nativeValue, captureOldCoords_nativeValue,
    capturePreviousState_nativeValue, cleanup_attributes_nativeValue,
    check_for_updated_entity_name_nativeValue]

lemma buildLocationStrings_nativeValue (s : PlacesState) :
    (buildLocationStrings s).nativeValue = s.nativeValue := by
  unfold buildLocationStrings
  simp [apply_ite PlacesState.nativeValue]

lemma resolveLastPlaceName_nativeValue (s : PlacesState) :
    (resolveLastPlaceName s).nativeValue = s.nativeValue := by
  unfold resolveLastPlaceName
  split
  · split <;> rfl
  · rfl

lemma homeDistanceKmMi_nativeValue (s : PlacesState) (ext : ExternalInputs) :
    (homeDistanceKmMi s ext).nativeValue = s.nativeValue := by
  unfold homeDistanceKmMi
  simp [apply_ite PlacesState.nativeValue]

lemma directionStep_nativeValue (s : PlacesState) (ext : ExternalInputs)
    (last : Option ℚ) (t : PlacesState) (h : directionStep s ext last = .ok t) :
    t.nativeValue = s.nativeValue := by
  unfold directionStep at h
  split at h
  · split at h
    · cases h; rfl
    · split at h
      · split at h
        · cases h; rfl
        · split at h
          · cases h; rfl
          · cases h; rfl
      · cases h
  · cases h; rfl

lemma homeZoneLogCheck_ok (s : PlacesState) (t : PlacesState)
    (h : homeZoneLogCheck s = .ok t) : t = s := by
  unfold homeZoneLogCheck at h
  split at h
  · cases h
  · split at h
    · cases h; rfl
    · cases h

lemma distanceTraveledStep_nativeValue (s : PlacesState) (ext : ExternalInputs) :
    (distanceTraveledStep s ext).nativeValue = s.nativeValue := by
  unfold distanceTraveledStep
  simp [apply_ite PlacesState.nativeValue]

lemma homeDistanceBlock_nativeValue (s : PlacesState) (ext : ExternalInputs)
    (last : Option ℚ) (t : PlacesState) (h : homeDistanceBlock s ext last = .ok t) :
    t.nativeValue = s.nativeValue := by
  unfold homeDistanceBlock at h
  obtain ⟨a, ha, hb⟩ := except_bind_ok' h
  obtain ⟨b, hb1, hb2⟩ := except_map_ok hb
  have h1 := directionStep_nativeValue _ ext last a ha
  have h2 := homeZoneLogCheck_ok _ _ hb1
  subst hb2
  rw [distanceTraveledStep_nativeValue, h2, h1, homeDistanceKmMi_nativeValue]

lemma update_coordinates_and_distance_nativeValue (s : PlacesState) (ext : ExternalInputs)
    (p : Bool) (t : PlacesState)
    (h : update_coordinates_and_distance s ext = .ok (p, t)) :
    t.nativeValue = s.nativeValue := by
  unfold update_coordinates_and_distance at h
  simp only [] at h
  split at h
  · obtain ⟨a, ha, hb⟩ := except_map_ok h
    have := homeDistanceBlock_nativeValue _ ext _ a ha
    cases hb
    rw [this, resolveLastPlaceName_nativeValue, buildLocationStrings_nativeValue]
  · cases h
    rw [resolveLastPlaceName_nativeValue, buildLocationStrings_nativeValue]

lemma determine_if_update_needed_nativeValue (s : PlacesState) (b : Bool) (t : PlacesState)
    (h : determine_if_update_needed s = .ok (b, t)) : t.nativeValue = s.nativeValue := by
  unfold determine_if_update_needed at h
  split at h
  · cases h; rfl
  · split at h
    · cases h; rfl
    · split at h
      · cases h; rfl
      · split at h
        · cases h
        · split at h
          · cases h; rfl
          · split at h
            · cases h; rfl
            · cases h; rfl

lemma get_map_link_nativeValue (s : PlacesState) :
    (get_map_link s).nativeValue = s.nativeValue := by
  unfold get_map_link
  split
  · rfl
  · split <;> rfl

lemma resetAndFetch_nativeValue (s : PlacesState) (ext : ExternalInputs) :
    (resetAndFetch s ext).nativeValue = s.nativeValue := by
  unfold resetAndFetch
  simp only []
  rw [show ∀ u : PlacesState, ({ u with osmDict := some ext.osmResult } : PlacesState).nativeValue
      = u.nativeValue from fun u => rfl]
  rw [get_map_link_nativeValue]

def nativeLenOk (s : PlacesState) : Prop :=
  ∀ v, s.nativeValue = some v → v.length ≤ 255

lemma getS_eq_some {x : Option String} {v : String} (h : getS x = some v) :
    x = some v := by
  cases x with
  | none => simp [getS] at h
  | some s =>
    unfold getS at h
    simp only [] at h
    split at h
    · cases h
    · exact h

lemma getS_idem (x : Option String) : getS (getS x) = getS x := by
  cases x with
  | none => rfl
  | some s =>
    show getS (if s = "" then none else some s) = (if s = "" then none else some s)
    split
    · rfl
    · rename_i hs
      simp [getS, hs]

lemma pyTake_length_le (s : String) (n : ℕ) : (pyTake s n).length ≤ n := by
  show (s.data.take n).length ≤ n
  simp [List.length_take]

lemma pyFmt02_hour_len : ∀ h : Fin 24, (pyFmt02 h.val).length = 2 := by decide

lemma pyFmt02_minute_len : ∀ m : Fin 60, (pyFmt02 m.val).length = 2 := by decide

lemma currentTimeStr_len (ext : ExternalInputs) : (currentTimeStr ext).length = 5 := by
  unfold currentTimeStr
  rw [String.length_append, String.length_append, pyFmt02_hour_len, pyFmt02_minute_len,
    show (":" : String).length = 1 from rfl]

lemma truncated_shape_len (v : String) (ext : ExternalInputs) :
    (pyTake v (255 - 14) ++ " (since " ++ currentTimeStr ext ++ ")").length ≤ 255 := by
  rw [String.length_append, String.length_append, String.length_append, currentTimeStr_len]
  have h14 := pyTake_length_le v (255 - 14)
  have h8 : (" (since " : String).length = 8 := rfl
  have h1 : (")" : String).length = 1 := rfl
  omega

lemma extendedDetailsApply_frame (s : PlacesState) (ext : ExternalInputs) :
    (extendedDetailsApply s ext).nativeValue = s.nativeValue ∧
    (extendedDetailsApply s ext).showTime = s.showTime := by
  unfold extendedDetailsApply
  constructor
  · simp [apply_ite PlacesState.nativeValue]
  · simp [apply_ite PlacesState.showTime]

lemma get_extended_attr_frame (s : PlacesState) (ext : ExternalInputs) (w : PlacesState)
    (h : get_extended_attr s ext = .ok w) :
    w.nativeValue = s.nativeValue ∧ w.showTime = s.showTime := by
  unfold get_extended_attr at h
  split at h
  · split at h
    · cases h
    · cases h
      exact extendedDetailsApply_frame s ext
  · cases h
    exact ⟨rfl, rfl⟩

lemma truncateNativeValue_len (s : PlacesState) (ext : ExternalInputs) :
    nativeLenOk (truncateNativeValue s ext) := by
  intro v hv
  unfold truncateNativeValue at hv
  simp only [] at hv
  split at hv
  · split at hv
    · rw [Option.some_inj] at hv
      rw [← hv]
      exact truncated_shape_len _ ext
    · rw [Option.some_inj] at hv
      rw [← hv]
      exact pyTake_length_le _ 255
  · cases hv

lemma truncateNativeValue_show (s : PlacesState) (ext : ExternalInputs) (v : String)
    (hshow : s.showTime = true) (hv : getS s.nativeValue = some v) :
    (truncateNativeValue s ext).nativeValue =
      some (pyTake v (255 - 14) ++ " (since " ++ currentTimeStr ext ++ ")") := by
  unfold truncateNativeValue
  have hb : ¬ (blankS s.nativeValue = true) := by simp [blankS, hv]
  rw [if_pos hb, if_pos hshow]
  rw [hv]
  rfl

lemma commitPhase_native (u : PlacesState) (ext : ExternalInputs) (w : PlacesState)
    (h : commitPhase u ext = .ok w) :
    nativeLenOk w ∧
    (u.showTime = true → ∀ v, getS u.nativeValue = some v →
      w.nativeValue = some (pyTake v (255 - 14) ++ " (since " ++ currentTimeStr ext ++ ")")) := by
  unfold commitPhase at h
  obtain ⟨a, ha, hw⟩ := except_map_ok h
  have ha2 : a.nativeValue = u.nativeValue ∧ a.showTime = u.showTime := by
    by_cases hx : u.extendedAttr = true
    · rw [if_pos hx] at ha
      exact get_extended_attr_frame u ext a ha
    · rw [if_neg hx] at ha
      cases ha
      exact ⟨rfl, rfl⟩
  have hclean_nv : (cleanup_attributes a).nativeValue = getS u.nativeValue := by
    rw [cleanup_attributes_nativeValue, ha2.1]
  have hclean_st : (cleanup_attributes a).showTime = u.showTime := by
    rw [cleanup_attributes_showTime, ha2.2]
  subst hw
  simp only []
  constructor
  · intro v hv
    have hv2 : (truncateNativeValue (cleanup_attributes a) ext).nativeValue = some v := hv
    exact truncateNativeValue_len (cleanup_attributes a) ext v hv2
  · intro hshow v hv
    have := truncateNativeValue_show (cleanup_attributes a) ext v
      (by rw [hclean_st, hshow]) (by rw [hclean_nv, getS_idem, hv])
    exact this

example : True := trivial

/-- C10: on every revert path of `do_update` — the coordinate resolver
declines (`proceed_with_update` false), the update gate declines, the
devicetracker zone is blank, or the final commit test fails — the
attribute store after the pass equals the pre-pass snapshot with only
`last_updated` restamped; in particular `updates_skipped` afterwards
equals its pre-pass value, so a debounce increment made by the gate
during such a pass is discarded with the rest of the revert. -/
theorem do_update_revert_frame (s : PlacesState) (ext : ExternalInputs)
    (p1 : Bool) (t1 : PlacesState)
    (h1 : update_coordinates_and_distance (doUpdatePre s ext) ext = .ok (p1, t1))
    (hrev : p1 = false
      ∨ (∃ t2, determine_if_update_needed t1 = .ok (false, t2))
      ∨ (∃ t2, determine_if_update_needed t1 = .ok (true, t2)
          ∧ blankS t2.devicetrackerZone)
      ∨ (∃ t2 t4, determine_if_update_needed t1 = .ok (true, t2)
          ∧ ¬ blankS t2.devicetrackerZone
          ∧ ¬ (getD (resetAndFetch t2 ext).osmDict).isNone
          ∧ postParsePhase (resetAndFetch t2 ext) ext
              (getS (doUpdatePre s ext).lastPlaceName) = .ok t4
          ∧ commitCondition t4 = false)) :
    do_update s ext = .ok { s with lastUpdated := some ext.nowStr } ∧
    ({ s with lastUpdated := some ext.nowStr } : PlacesState).updatesSkipped
      = s.updatesSkipped := by
  refine ⟨?_, rfl⟩
  unfold do_update
  simp only []
  rw [h1]
  simp only [Bind.bind, Except.bind]
  by_cases hp : p1 = true
  · rw [if_pos hp]
    rcases hrev with hf | ⟨t2, hg⟩ | ⟨t2, hg, hz⟩ | ⟨t2, t4, hg, hz, ho, hp4, hc⟩
    · rw [hp] at hf; cases hf
    · rw [hg]
      simp only []
      have hcond : ¬ (false = true ∧ ¬ blankS t2.devicetrackerZone = true) := by simp
      rw [if_neg hcond]
      rfl
    · rw [hg]
      simp only []
      have hcond : ¬ (True ∧ ¬ blankS t2.devicetrackerZone = true) := by
        simp [hz]
      rw [if_neg hcond]
      rfl
    · rw [hg]
      simp only []
      have hcond : (True ∧ ¬ blankS t2.devicetrackerZone = true) := ⟨trivial, hz⟩
      rw [if_pos hcond, if_pos ho, hp4]
      simp only []
      rw [if_neg (by simp [hc])]
      rfl
  · have hpf : p1 = false := by
      cases p1
      · rfl
      · exact absurd rfl hp
    rw [if_neg hp]
    have hcond : ¬ (false = true ∧ ¬ blankS t1.devicetrackerZone = true) := by simp
    simp only [pure, Except.pure]
    rw [if_neg hcond]

/-- C7: the 255-character bound on the committed display value.  If every
stored `native_value` of the incoming state is at most 255 characters,
the same holds after any completed `do_update` pass; and on the commit
stage itself, a non-blank value under `show_time` becomes exactly the
241-character truncation plus the `" (since HH:MM)"` suffix, whose total
length is again at most 255. -/
theorem do_update_native_value_bounded (s : PlacesState) (ext : ExternalInputs)
    (t : PlacesState) (hs : nativeLenOk s) (h : do_update s ext = .ok t) :
    nativeLenOk t ∧
    (∀ u w v, u.showTime = true → getS u.nativeValue = some v →
      commitPhase u ext = .ok w →
      w.nativeValue = some (pyTake v (255 - 14) ++ " (since " ++ currentTimeStr ext ++ ")")
        ∧ (pyTake v (255 - 14) ++ " (since " ++ currentTimeStr ext ++ ")").length ≤ 255) := by
  constructor
  · have hsg : ∀ v, getS s.nativeValue = some v → v.length ≤ 255 := by
      intro v hv
      exact hs v (getS_eq_some hv)
    unfold do_update at h
    simp only [] at h
    obtain ⟨⟨p1, t1⟩, h1, h⟩ := except_bind_ok h
    simp only [] at h
    have hn1 : t1.nativeValue = getS s.nativeValue := by
      rw [update_coordinates_and_distance_nativeValue (doUpdatePre s ext) ext p1 t1 h1,
        doUpdatePre_nativeValue]
    by_cases hp : p1 = true
    · rw [if_pos hp] at h
      obtain ⟨⟨proceed, t2⟩, h2, h⟩ := except_bind_ok h
      simp only [] at h
      have hn2 : t2.nativeValue = getS s.nativeValue := by
        rw [determine_if_update_needed_nativeValue t1 proceed t2 h2, hn1]
      split at h
      · split at h
        · obtain ⟨t4, h4, h⟩ := except_bind_ok h
          split at h
          · obtain ⟨t5, h5, h⟩ := except_bind_ok h
            simp only [pure, Except.pure] at h
            cases h
            intro v hv
            have h5n := (commitPhase_native t4 ext t5 h5).1
            exact h5n v hv
          · simp only [pure, Except.pure] at h
            cases h
            intro v hv
            exact hs v hv
        · simp only [pure, Except.pure] at h
          cases h
          intro v hv
          have hvr : (resetAndFetch t2 ext).nativeValue = some v := hv
          rw [resetAndFetch_nativeValue, hn2] at hvr
          exact hsg v hvr
      · simp only [pure, Except.pure] at h
        cases h
        intro v hv
        exact hs v hv
    · rw [if_neg hp] at h
      simp only [pure, Except.pure, Bind.bind, Except.bind, false_and, if_false] at h
      cases h
      intro v hv
      exact hs v hv
  · intro u w v hshow hv hc
    exact ⟨(commitPhase_native u ext w hc).2 hshow v hv, truncated_shape_len v ext⟩

/-- The per-pass readings for the C10 witness: a tracker with no usable
coordinates at a fixed timestamp. -/
def revertWitnessExt : ExternalInputs :=
  { nowHour := 0, nowMinute := 0, nowStr := "2024-01-01 00:00:00+00:00" }

/-- The resolver output on the default store under `revertWitnessExt`:
only the zone readings are filled in before the resolver declines. -/
def revertWitnessT1 : PlacesState :=
  { devicetrackerZone := some "not_home", devicetrackerZoneName := some "Not_Home" }

/-- C10, witness: on the default store with no usable coordinates the
resolver declines, and the pass returns the snapshot with only
`last_updated` stamped and `updates_skipped` unchanged. -/
theorem do_update_revert_frame_witness :
    do_update {} revertWitnessExt =
      .ok { ({} : PlacesState) with lastUpdated := some revertWitnessExt.nowStr } ∧
    ({ ({} : PlacesState) with lastUpdated := some revertWitnessExt.nowStr }
        : PlacesState).updatesSkipped = ({} : PlacesState).updatesSkipped :=
  do_update_revert_frame {} revertWitnessExt false revertWitnessT1 (by decide) (Or.inl rfl)

/-- The per-pass readings for the C7 witness. -/
def c7Ext : ExternalInputs :=
  { nowHour := 12, nowMinute := 34, nowStr := "2024-06-01 12:34:00+00:00" }

/-- A commit-stage input for the C7 witness: a non-blank four-character
value with `show_time` configured. -/
def c7CommitInput : PlacesState :=
  { nativeValue := some "Home", previousState := some "Work", showTime := true }

/-- The commit-stage output on `c7CommitInput`: the value carries the
`" (since 12:34)"` suffix and the initial-update flag is cleared. -/
def c7CommitOutput : PlacesState :=
  { initialUpdate := false, nativeValue := some "Home (since 12:34)",
    previousState := some "Work", showTime := true }

/-- C7, witness: the bound theorem applied on a concrete pass (the
default store, which trivially satisfies the incoming bound), and its
commit-stage clause applied at a concrete `show_time` input, whose
output value is the truncation plus suffix and is within 255
characters. -/
theorem do_update_native_value_bounded_witness :
    nativeLenOk ({ lastUpdated := some c7Ext.nowStr } : PlacesState) ∧
    c7CommitOutput.nativeValue =
      some (pyTake "Home" (255 - 14) ++ " (since " ++ currentTimeStr c7Ext ++ ")") ∧
    (pyTake "Home" (255 - 14) ++ " (since " ++ currentTimeStr c7Ext ++ ")").length ≤ 255 := by
  have hmain := do_update_native_value_bounded {} c7Ext
    { lastUpdated := some c7Ext.nowStr } (fun v hv => nomatch hv) (by decide)
  have hcommit := hmain.2 c7CommitInput c7CommitOutput "Home" rfl rfl (by decide)
  exact ⟨hmain.1, hcommit.1, hcommit.2⟩

/-- C9: the great-circle distance is symmetric in its two coordinate
pairs, and the distance from a point to itself is zero. -/
theorem haversine_symm_and_self (a b : ℝ × ℝ) :
    haversine a.1 a.2 b.1 b.2 = haversine b.1 b.2 a.1 a.2 ∧
    haversine a.1 a.2 a.1 a.2 = 0 := by
  have key : ∀ x y : ℝ, Real.sin ((x - y) / 2) ^ 2 = Real.sin ((y - x) / 2) ^ 2 := by
    intro x y
    rw [show (x - y) / 2 = -((y - x) / 2) by ring, Real.sin_neg, neg_sq]
  constructor
  · unfold haversine
    simp only []
    rw [key (radiansR b.2) (radiansR a.2), key (radiansR b.1) (radiansR a.1),
      mul_comm (Real.cos (radiansR a.2)) (Real.cos (radiansR b.2))]
  · unfold haversine
    simp [Real.sqrt_zero, Real.arcsin_zero]

/-- For `0 ≤ y ≤ 1/2` the arcsine is at most `y + y³` (a crude but
sufficient cubic upper bound, from `x - x³/4 < sin x`). -/
lemma arcsin_le_add_cube {y : ℝ} (h0 : 0 ≤ y) (h2 : y ≤ 1 / 2) :
    Real.arcsin y ≤ y + y ^ 3 := by
  rcases eq_or_lt_of_le h0 with h | h
  · rw [← h]
    simp
  · have hcube : y ^ 3 ≤ (1 / 2 : ℝ) ^ 3 := pow_le_pow_left₀ h0 h2 3
    have hx1 : y + y ^ 3 ≤ 1 := by nlinarith [hcube]
    have hxpos : 0 < y + y ^ 3 := by positivity
    have hsin : y + y ^ 3 - (y + y ^ 3) ^ 3 / 4 < Real.sin (y + y ^ 3) :=
      Real.sin_gt_sub_cube hxpos hx1
    have h3 : 0 < y ^ 3 := by positivity
    have hsq : y ^ 2 ≤ 1 / 4 := by nlinarith
    have h4 : (1 + y ^ 2) ^ 3 ≤ 4 := by nlinarith [hsq, sq_nonneg y, sq_nonneg (y ^ 2)]
    have h5 : (y + y ^ 3) ^ 3 ≤ 4 * y ^ 3 := by
      calc (y + y ^ 3) ^ 3 = y ^ 3 * (1 + y ^ 2) ^ 3 := by ring
        _ ≤ y ^ 3 * 4 := mul_le_mul_of_nonneg_left h4 h3.le
        _ = 4 * y ^ 3 := by ring
    have hy : y ≤ Real.sin (y + y ^ 3) := by linarith [hsin, h5]
    have hpi := Real.pi_gt_d2
    calc Real.arcsin y ≤ Real.arcsin (Real.sin (y + y ^ 3)) := Real.monotone_arcsin hy
      _ = y + y ^ 3 := Real.arcsin_sin (by nlinarith) (by nlinarith)

/-- C1: the direction-of-travel computation uses the haversine call with
its latitude/longitude arguments swapped.  Moving 0.0025° of longitude
along latitude 60° is at most 0.2 km by the declared
`haversine(lon1, lat1, lon2, lat2)` signature — the claim then requires
"stationary" — yet the code's call
`self.haversine(latitude_old, longitude_old, latitude, longitude)`
computes the swapped distance (≈ 0.28 km) and, with the distance from
home falling from 1000 m to 0 m, classifies the move as "towards home". -/
theorem direction_of_travel_uses_swapped_haversine :
    haversine 0 60 (1 / 400) 60 ≤ 0.2 ∧
    directionOfTravelReal 60 0 60 (1 / 400) 1000 0 = "towards home" := by
  have hpi_pos := Real.pi_pos
  have hpi_gt := Real.pi_gt_d2
  have hpi_lt := Real.pi_lt_d2
  have hs_nonneg : 0 ≤ Real.sin (Real.pi / 144000) :=
    Real.sin_nonneg_of_nonneg_of_le_pi (by positivity) (by linarith)
  constructor
  · unfold haversine radiansR
    simp only []
    rw [show (0 : ℝ) * Real.pi / 180 = 0 by ring,
      show (60 : ℝ) * Real.pi / 180 = Real.pi / 3 by ring,
      show (1 / 400 : ℝ) * Real.pi / 180 = Real.pi / 72000 by ring]
    have ha : Real.sin ((Real.pi / 3 - Real.pi / 3) / 2) ^ 2
        + Real.cos (Real.pi / 3) * Real.cos (Real.pi / 3)
          * Real.sin ((Real.pi / 72000 - 0) / 2) ^ 2
        = (Real.sin (Real.pi / 144000) / 2) ^ 2 := by
      rw [Real.cos_pi_div_three,
        show (Real.pi / 3 - Real.pi / 3) / 2 = 0 by ring, Real.sin_zero,
        show (Real.pi / 72000 - 0) / 2 = Real.pi / 144000 by ring]
      ring
    rw [ha, Real.sqrt_sq (by positivity)]
    have hy0 : 0 ≤ Real.sin (Real.pi / 144000) / 2 := by positivity
    have hy_half : Real.sin (Real.pi / 144000) / 2 ≤ 1 / 2 := by
      have := Real.sin_le_one (Real.pi / 144000)
      linarith
    have hy_lt : Real.sin (Real.pi / 144000) / 2 ≤ 3.15 / 288000 := by
      have h1 : Real.sin (Real.pi / 144000) < Real.pi / 144000 :=
        Real.sin_lt (by positivity)
      linarith
    have harc : Real.arcsin (Real.sin (Real.pi / 144000) / 2)
        ≤ Real.sin (Real.pi / 144000) / 2 + (Real.sin (Real.pi / 144000) / 2) ^ 3 :=
      arcsin_le_add_cube hy0 hy_half
    have hy3 : (Real.sin (Real.pi / 144000) / 2) ^ 3 ≤ (3.15 / 288000 : ℝ) ^ 3 :=
      pow_le_pow_left₀ hy0 hy_lt 3
    nlinarith [harc, hy3, hy_lt]
  · unfold directionOfTravelReal
    have hgt : ¬ haversine 60 0 60 (1 / 400) ≤ 0.2 := by
      unfold haversine radiansR
      simp only []
      rw [show (0 : ℝ) * Real.pi / 180 = 0 by ring,
        show (60 : ℝ) * Real.pi / 180 = Real.pi / 3 by ring,
        show (1 / 400 : ℝ) * Real.pi / 180 = Real.pi / 72000 by ring]
      have ha : Real.sin ((Real.pi / 72000 - 0) / 2) ^ 2
          + Real.cos 0 * Real.cos (Real.pi / 72000)
            * Real.sin ((Real.pi / 3 - Real.pi / 3) / 2) ^ 2
          = Real.sin (Real.pi / 144000) ^ 2 := by
        rw [show (Real.pi / 3 - Real.pi / 3) / 2 = 0 by ring, Real.sin_zero,
          show (Real.pi / 72000 - 0) / 2 = Real.pi / 144000 by ring]
        ring
      rw [ha, Real.sqrt_sq hs_nonneg,
        Real.arcsin_sin (by linarith) (by linarith)]
      push_neg
      nlinarith
    rw [if_neg hgt, if_pos (by norm_num : (1000 : ℝ) > 0)]
